import Mathlib

/-
Verification of the SmartThings custom-component core: the capability
assignment resolver and the device-status cache with its paged-resource
fetch/merge protocol.  Python entity classes from the sources are embedded
as pure Lean functions; instance attributes that the Python code declares
at class level and later shadows by `self.x = ...` writes are modelled as
`Option` fields (none = not yet written, read falls back to the class-level
default).
-/

/-- JSON-like values as stored in the device status cache (Python objects
passed around as attribute values / payloads).  Python floats are carried
as exact rationals: every value the sources feed through this path is a
decimal float, represented exactly, and the only arithmetic performed on
one is `int(...)` truncation, which is exact. -/
inductive JValue where
  | jnull : JValue
  | jbool : Bool → JValue
  | jint : Int → JValue
  | jrat : Rat → JValue
  | jstr : String → JValue
  | jarr : List JValue → JValue
  | jobj : List (String × JValue) → JValue

mutual
/-- Decidable equality on JSON values (Python `==` on these data). -/
def JValue.decEq : (a b : JValue) → Decidable (a = b)
  | JValue.jnull, JValue.jnull => isTrue rfl
  | JValue.jbool a, JValue.jbool b =>
    if h : a = b then isTrue (by rw [h]) else isFalse (fun hh => h (by injection hh))
  | JValue.jint a, JValue.jint b =>
    if h : a = b then isTrue (by rw [h]) else isFalse (fun hh => h (by injection hh))
  | JValue.jrat a, JValue.jrat b =>
    if h : a = b then isTrue (by rw [h]) else isFalse (fun hh => h (by injection hh))
  | JValue.jstr a, JValue.jstr b =>
    if h : a = b then isTrue (by rw [h]) else isFalse (fun hh => h (by injection hh))
  | JValue.jarr a, JValue.jarr b =>
    match JValue.decEqArr a b with
    | isTrue h => isTrue (by rw [h])
    | isFalse h => isFalse (fun hh => h (by injection hh))
  | JValue.jobj a, JValue.jobj b =>
    match JValue.decEqObj a b with
    | isTrue h => isTrue (by rw [h])
    | isFalse h => isFalse (fun hh => h (by injection hh))
  | JValue.jnull, JValue.jbool _ => isFalse (fun h => JValue.noConfusion h)
  | JValue.jnull, JValue.jint _ => isFalse (fun h => JValue.noConfusion h)
  | JValue.jnull, JValue.jstr _ => isFalse (fun h => JValue.noConfusion h)
  | JValue.jnull, JValue.jarr _ => isFalse (fun h => JValue.noConfusion h)
  | JValue.jnull, JValue.jobj _ => isFalse (fun h => JValue.noConfusion h)
  | JValue.jbool _, JValue.jnull => isFalse (fun h => JValue.noConfusion h)
  | JValue.jbool _, JValue.jint _ => isFalse (fun h => JValue.noConfusion h)
  | JValue.jbool _, JValue.jstr _ => isFalse (fun h => JValue.noConfusion h)
  | JValue.jbool _, JValue.jarr _ => isFalse (fun h => JValue.noConfusion h)
  | JValue.jbool _, JValue.jobj _ => isFalse (fun h => JValue.noConfusion h)
  | JValue.jint _, JValue.jnull => isFalse (fun h => JValue.noConfusion h)
  | JValue.jint _, JValue.jbool _ => isFalse (fun h => JValue.noConfusion h)
  | JValue.jint _, JValue.jstr _ => isFalse (fun h => JValue.noConfusion h)
  | JValue.jint _, JValue.jarr _ => isFalse (fun h => JValue.noConfusion h)
  | JValue.jint _, JValue.jobj _ => isFalse (fun h => JValue.noConfusion h)
  | JValue.jstr _, JValue.jnull => isFalse (fun h => JValue.noConfusion h)
  | JValue.jstr _, JValue.jbool _ => isFalse (fun h => JValue.noConfusion h)
  | JValue.jstr _, JValue.jint _ => isFalse (fun h => JValue.noConfusion h)
  | JValue.jstr _, JValue.jarr _ => isFalse (fun h => JValue.noConfusion h)
  | JValue.jstr _, JValue.jobj _ => isFalse (fun h => JValue.noConfusion h)
  | JValue.jarr _, JValue.jnull => isFalse (fun h => JValue.noConfusion h)
  | JValue.jarr _, JValue.jbool _ => isFalse (fun h => JValue.noConfusion h)
  | JValue.jarr _, JValue.jint _ => isFalse (fun h => JValue.noConfusion h)
  | JValue.jarr _, JValue.jstr _ => isFalse (fun h => JValue.noConfusion h)
  | JValue.jarr _, JValue.jobj _ => isFalse (fun h => JValue.noConfusion h)
  | JValue.jobj _, JValue.jnull => isFalse (fun h => JValue.noConfusion h)
  | JValue.jobj _, JValue.jbool _ => isFalse (fun h => JValue.noConfusion h)
  | JValue.jobj _, JValue.jint _ => isFalse (fun h => JValue.noConfusion h)
  | JValue.jobj _, JValue.jstr _ => isFalse (fun h => JValue.noConfusion h)
  | JValue.jobj _, JValue.jarr _ => isFalse (fun h => JValue.noConfusion h)
  | JValue.jnull, JValue.jrat _ => isFalse (fun h => JValue.noConfusion h)
  | JValue.jbool _, JValue.jrat _ => isFalse (fun h => JValue.noConfusion h)
  | JValue.jint _, JValue.jrat _ => isFalse (fun h => JValue.noConfusion h)
  | JValue.jstr _, JValue.jrat _ => isFalse (fun h => JValue.noConfusion h)
  | JValue.jarr _, JValue.jrat _ => isFalse (fun h => JValue.noConfusion h)
  | JValue.jobj _, JValue.jrat _ => isFalse (fun h => JValue.noConfusion h)
  | JValue.jrat _, JValue.jnull => isFalse (fun h => JValue.noConfusion h)
  | JValue.jrat _, JValue.jbool _ => isFalse (fun h => JValue.noConfusion h)
  | JValue.jrat _, JValue.jint _ => isFalse (fun h => JValue.noConfusion h)
  | JValue.jrat _, JValue.jstr _ => isFalse (fun h => JValue.noConfusion h)
  | JValue.jrat _, JValue.jarr _ => isFalse (fun h => JValue.noConfusion h)
  | JValue.jrat _, JValue.jobj _ => isFalse (fun h => JValue.noConfusion h)

/-- Decidable equality on lists of JSON values. -/
def JValue.decEqArr : (a b : List JValue) → Decidable (a = b)
  | [], [] => isTrue rfl
  | [], _ :: _ => isFalse (fun h => List.noConfusion h)
  | _ :: _, [] => isFalse (fun h => List.noConfusion h)
  | a :: as, b :: bs =>
    match JValue.decEq a b, JValue.decEqArr as bs with
    | isTrue h1, isTrue h2 => isTrue (by rw [h1, h2])
    | isFalse h1, _ => isFalse (fun hh => by injection hh with ha hb; exact h1 ha)
    | _, isFalse h2 => isFalse (fun hh => by injection hh with ha hb; exact h2 hb)

/-- Decidable equality on JSON object field lists. -/
def JValue.decEqObj : (a b : List (String × JValue)) → Decidable (a = b)
  | [], [] => isTrue rfl
  | [], _ :: _ => isFalse (fun h => List.noConfusion h)
  | _ :: _, [] => isFalse (fun h => List.noConfusion h)
  | (k, v) :: as, (k2, v2) :: bs =>
    match String.decEq k k2, JValue.decEq v v2, JValue.decEqObj as bs with
    | isTrue h1, isTrue h2, isTrue h3 => isTrue (by rw [h1, h2, h3])
    | isFalse h1, _, _ =>
      isFalse (fun hh => by injection hh with ha hb; exact h1 (congrArg Prod.fst ha))
    | _, isFalse h2, _ =>
      isFalse (fun hh => by injection hh with ha hb; exact h2 (congrArg Prod.snd ha))
    | _, _, isFalse h3 => isFalse (fun hh => by injection hh with ha hb; exact h3 hb)
end

instance : DecidableEq JValue := JValue.decEq

deriving instance DecidableEq for Except

/-- Python exceptions that the embedded code can raise. -/
inductive PyErr where
  | keyError (k : String) : PyErr
  | keyErrorIdx (i : Nat) : PyErr
  | typeError : PyErr
  | valueError : PyErr
  | indexError : PyErr
deriving DecidableEq, Repr

/-- Prefix test on character lists. -/
def charsPrefixOf : List Char → List Char → Bool
  | [], _ => true
  | _ :: _, [] => false
  | a :: as, b :: bs => a == b && charsPrefixOf as bs

/-- Infix test on character lists. -/
def charsInfixOf (needle : List Char) : List Char → Bool
  | [] => charsPrefixOf needle []
  | b :: bs => charsPrefixOf needle (b :: bs) || charsInfixOf needle bs

/-- Python substring test: `needle in hay` for strings. -/
def strContains (hay needle : String) : Bool :=
  charsInfixOf needle.data hay.data

mutual
/-- Python `json.dumps` with default separators, for values whose strings
need no escaping (all values appearing in this development).  The dump of
a float is a stand-in for Python's shortest-repr: no value this
development serializes contains one (floats occur only in the temperature
path, which never passes through `json.dumps`). -/
def jdump : JValue → String
  | JValue.jnull => "null"
  | JValue.jbool true => "true"
  | JValue.jbool false => "false"
  | JValue.jint n => toString n
  | JValue.jrat q => toString q
  | JValue.jstr s => "\"" ++ s ++ "\""
  | JValue.jarr xs => "[" ++ jdumpArr xs ++ "]"
  | JValue.jobj fs => "\x7b" ++ jdumpObj fs ++ "\x7d"

/-- Comma-joined dump of array elements. -/
def jdumpArr : List JValue → String
  | [] => ""
  | [v] => jdump v
  | v :: w :: rest => jdump v ++ ", " ++ jdumpArr (w :: rest)

/-- Comma-joined dump of object fields. -/
def jdumpObj : List (String × JValue) → String
  | [] => ""
  | [(k, v)] => "\"" ++ k ++ "\": " ++ jdump v
  | (k, v) :: f :: rest => "\"" ++ k ++ "\": " ++ jdump v ++ ", " ++ jdumpObj (f :: rest)
end

/-- Python dict subscription `v[k]`: value on an object key hit, `KeyError`
when the key is absent, `TypeError` when the subscripted value is not a
dict (in particular `None[k]`). -/
def jget : JValue → String → Except PyErr JValue
  | JValue.jobj fs, k =>
    match fs.lookup k with
    | some v => Except.ok v
    | none => Except.error (PyErr.keyError k)
  | _, _ => Except.error PyErr.typeError

/-- Python `needle in container` for a string needle: substring test on a
string, element membership on a list, key membership on a dict, `TypeError`
otherwise. -/
def pyInStr (needle : String) : JValue → Except PyErr Bool
  | JValue.jstr s => Except.ok (strContains s needle)
  | JValue.jarr xs => Except.ok (xs.contains (JValue.jstr needle))
  | JValue.jobj fs => Except.ok (fs.any (fun p => p.1 == needle))
  | _ => Except.error PyErr.typeError

/-- Python `int(float)` truncates toward zero; on an exact rational this
is T-division of the numerator by the denominator. -/
def pyTrunc (q : Rat) : Int :=
  q.num.tdiv q.den

/-- Python `int(x)`. -/
def pyInt : JValue → Except PyErr Int
  | JValue.jint n => Except.ok n
  | JValue.jrat q => Except.ok (pyTrunc q)
  | JValue.jbool b => Except.ok (if b then 1 else 0)
  | JValue.jstr s =>
    match s.toInt? with
    | some n => Except.ok n
    | none => Except.error PyErr.valueError
  | _ => Except.error PyErr.typeError

/-- Python `len(x)`: characters of a string, elements of a list, keys of a
dict; `TypeError` on anything unsized. -/
def pyLen : JValue → Except PyErr Nat
  | JValue.jstr s => Except.ok s.length
  | JValue.jarr xs => Except.ok xs.length
  | JValue.jobj fs => Except.ok fs.length
  | _ => Except.error PyErr.typeError

/-- Python `x[0]`: first character of a string or first element of a list
(`IndexError` when empty), `KeyError` on a string-keyed dict, `TypeError`
otherwise. -/
def pyIndex0 : JValue → Except PyErr JValue
  | JValue.jstr s =>
    match s.data with
    | [] => Except.error PyErr.indexError
    | ch :: _ => Except.ok (JValue.jstr (String.mk [ch]))
  | JValue.jarr [] => Except.error PyErr.indexError
  | JValue.jarr (x :: _) => Except.ok x
  | JValue.jobj _ => Except.error (PyErr.keyErrorIdx 0)
  | _ => Except.error PyErr.typeError

/-- Python `needle in container` for an arbitrary needle: element
membership on a list, substring test when both sides are strings
(`TypeError` for a non-string needle on a string), key membership on a
dict, `TypeError` on anything not a container. -/
def pyIn (needle : JValue) : JValue → Except PyErr Bool
  | JValue.jarr xs => Except.ok (xs.contains needle)
  | JValue.jstr s =>
    match needle with
    | JValue.jstr n => Except.ok (strContains s n)
    | _ => Except.error PyErr.typeError
  | JValue.jobj fs => Except.ok (fs.any (fun p => needle == JValue.jstr p.1))
  | _ => Except.error PyErr.typeError

/-- Outcome of running a (possibly raising, possibly mutating) Python
method: result or exception, together with the state left behind — Python
keeps attribute writes performed before a raise. -/
inductive PyResult (α : Type) (σ : Type) where
  | ok (val : α) (st : σ) : PyResult α σ
  | exc (err : PyErr) (st : σ) : PyResult α σ
deriving DecidableEq

/-- The state a method run left behind, whether it returned or raised. -/
def PyResult.finalState {α σ : Type} : PyResult α σ → σ
  | PyResult.ok _ s => s
  | PyResult.exc _ s => s

/-- The returned value, `none` when the run raised. -/
def PyResult.retVal {α σ : Type} : PyResult α σ → Option α
  | PyResult.ok v _ => some v
  | PyResult.exc _ _ => none

/-- One attribute slot of the device status cache: `pysmartthings`
`Attribute(value, unit, data)` — `value` is the payload value, `data` the
raw metadata (carries `href` for paged resources). -/
structure AttributeRecord where
  value : JValue := JValue.jnull
  unit : Option String := none
  data : JValue := JValue.jnull
deriving DecidableEq

/-- Per-device status cache: attribute key to record. -/
structure DeviceStatus where
  attributes : List (String × AttributeRecord)
deriving DecidableEq

/-- Cache point read (`status.attributes[key]`): non-blocking; a missing
key yields the empty record `Attribute(None, None, None)` (the library
stores attributes in a defaultdict). -/
def DeviceStatus.attr (st : DeviceStatus) (k : String) : AttributeRecord :=
  (st.attributes.lookup k).getD {}

/-- Modelled from the spec: `DeviceStatusCache.patch` — the optimistic
local overwrite performed by `status.update_attribute_value(key, value)`
(implemented in the external pysmartthings library): the attribute's value
is replaced at once, its unit and raw metadata kept. -/
def DeviceStatus.update_attribute_value (st : DeviceStatus) (k : String) (v : JValue) :
    DeviceStatus :=
  ⟨(k, { st.attr k with value := v }) :: st.attributes.filter (fun p => p.1 ≠ k)⟩

/-- Modelled from the spec: `DeviceStatusCache.merge` — a push notification
overwrites the attribute record (value, unit, raw metadata) verbatim,
without interpreting it; interpretation of the paged `data` slot is left to
the consumers' reads. -/
def DeviceStatus.merge (st : DeviceStatus) (k : String) (rec : AttributeRecord) :
    DeviceStatus :=
  ⟨(k, rec) :: st.attributes.filter (fun p => p.1 ≠ k)⟩

/-
Paged consumers.  Each Python entity class declares its sticky fields at
class level (`execute_state = ...`, `init_bool = ...`) and mutates them only
through `self.field = ...`, which in Python creates/overwrites an entry in
the instance dict and never touches the class attribute.  An instance's
state is therefore a record of `Option` fields: `none` means "never written
by this instance, attribute lookup falls through to the class-level
default".
-/

/-- Constructor arguments of `SamsungOcfDoorBinarySensor`
(binary_sensor.py, lines 278-292). -/
structure DoorCfg where
  page : String
  on_value : String
  off_value : String

/-- Instance dict of a `SamsungOcfDoorBinarySensor`; class-level defaults
are `execute_state = False`, `init_bool = False` (binary_sensor.py,
lines 275-276). -/
structure DoorState where
  execute_state : Option Bool := none
  init_bool : Option Bool := none
deriving DecidableEq

/-- Attribute read `self.execute_state` (instance dict, then class default). -/
def DoorState.executeState (s : DoorState) : Bool :=
  s.execute_state.getD false

/-- Attribute read `self.init_bool` (instance dict, then class default). -/
def DoorState.initBool (s : DoorState) : Bool :=
  s.init_bool.getD false

/-- `SamsungOcfDoorBinarySensor.is_on` (binary_sensor.py, lines 311-325):
dispatches the fire-and-forget `startup()` fetch while uninitialized, then
reads the shared `data` slot gated by `href == self._page`.  Returns the
value together with the instance state left behind and the list of paths
passed to `device.execute` (the dispatched fetches). -/
def SamsungOcfDoorBinarySensor.is_on (c : DoorCfg) (s : DoorState) (st : DeviceStatus) :
    PyResult Bool (DoorState × List String) :=
  let fetches := if s.initBool then [] else [c.page]
  let dataAttr := st.attr "data"
  match jget dataAttr.data "href" with
  | Except.error e => PyResult.exc e (s, fetches)
  | Except.ok href =>
    if href = JValue.jstr c.page then
      let s1 : DoorState := { s with init_bool := some true }
      match jget dataAttr.value "payload" with
      | Except.error e => PyResult.exc e (s1, fetches)
      | Except.ok payload =>
        match jget payload "openState" with
        | Except.error e => PyResult.exc e (s1, fetches)
        | Except.ok output =>
          match pyInStr c.on_value output with
          | Except.error e => PyResult.exc e (s1, fetches)
          | Except.ok b1 =>
            let s2 : DoorState := if b1 then { s1 with execute_state := some true } else s1
            match pyInStr c.off_value output with
            | Except.error e => PyResult.exc e (s2, fetches)
            | Except.ok b2 =>
              let s3 : DoorState :=
                if b2 then { s2 with execute_state := some false } else s2
              PyResult.ok s3.executeState (s3, fetches)
    else
      PyResult.ok s.executeState (s, fetches)

/-- Instance dict of a `SamsungAcLight` (src/switch.py); class-level
default `execute_state = False` (line 289). -/
structure AcLightState where
  execute_state : Option Bool := none
deriving DecidableEq

/-- Attribute read `self.execute_state`. -/
def AcLightState.executeState (s : AcLightState) : Bool :=
  s.execute_state.getD false

/-- `SamsungAcLight.async_turn_on` (src/switch.py, lines 298-303): fires
`device.execute("mode/vs/0", ...)` and sets `self.execute_state = True`
without inspecting the result — `ack` is the acknowledgment the remote
call returned, and the code ignores it. -/
def SamsungAcLight.async_turn_on (ack : Bool) (s : AcLightState) : AcLightState :=
  { s with execute_state := some true }

/-- `SamsungAcLight.async_turn_off` (src/switch.py, lines 291-296):
likewise ignores the acknowledgment. -/
def SamsungAcLight.async_turn_off (ack : Bool) (s : AcLightState) : AcLightState :=
  { s with execute_state := some false }

/-- `SamsungAcLight.is_on` (src/switch.py, lines 315-326): dispatches the
`mode/vs/0` fetch on every read, then searches the JSON dump of the shared
`data` slot's value for the marker substrings — with no `href` gate. -/
def SamsungAcLight.is_on (s : AcLightState) (st : DeviceStatus) :
    Bool × AcLightState × List String :=
  let fetches := ["mode/vs/0"]
  let output := jdump (st.attr "data").value
  if strContains output "Light_Off" then
    let s1 : AcLightState := { s with execute_state := some true }
    (s1.executeState, s1, fetches)
  else if strContains output "Light_On" then
    let s1 : AcLightState := { s with execute_state := some false }
    (s1.executeState, s1, fetches)
  else
    (s.executeState, s, fetches)

/-- Constructor arguments of `SamsungOcfModeOptionsBinarySensor` that its
reads use (binary_sensor.py, lines 215-231). -/
structure ModeOptionsCfg where
  on_value : String
  off_value : String

/-- Instance dict of a `SamsungOcfModeOptionsBinarySensor`; class-level
defaults `execute_state = False`, `init_bool = False` (binary_sensor.py,
lines 212-213). -/
structure ModeOptionsState where
  execute_state : Option Bool := none
  init_bool : Option Bool := none
deriving DecidableEq

/-- Attribute read `self.execute_state`. -/
def ModeOptionsState.executeState (s : ModeOptionsState) : Bool :=
  s.execute_state.getD false

/-- Attribute read `self.init_bool`. -/
def ModeOptionsState.initBool (s : ModeOptionsState) : Bool :=
  s.init_bool.getD false

/-- `SamsungOcfModeOptionsBinarySensor.is_on` (binary_sensor.py, lines
252-263) with its `startup` (lines 233-238): the startup fetch sets
`self.init_bool = True`, so the `/mode/vs/0` fetch is dispatched exactly
once; the read then searches the JSON dump of the `data` slot's value for
the marker substrings, ungated by `href`. -/
def SamsungOcfModeOptionsBinarySensor.is_on (c : ModeOptionsCfg) (s : ModeOptionsState)
    (st : DeviceStatus) : Bool × ModeOptionsState × List String :=
  let (s1, fetches) :=
    if s.initBool then (s, ([] : List String))
    else ({ s with init_bool := some true }, ["/mode/vs/0"])
  let output := jdump (st.attr "data").value
  let s2 : ModeOptionsState :=
    if strContains output c.on_value then { s1 with execute_state := some true } else s1
  let s3 : ModeOptionsState :=
    if strContains output c.off_value then { s2 with execute_state := some false } else s2
  (s3.executeState, s3, fetches)

/-- Constructor arguments of `SmartThingsCustomSwitch`
(custom_components/smartthings/switch.py, lines 271-294); `jnull` models a
Python `None` on/off value, and `attributeName` embeds the constructor's
`attribute` argument (`attribute` is a Lean keyword). -/
structure CustomSwitchCfg where
  capability : String
  attributeName : String
  on_command : String
  off_command : String
  on_value : JValue
  off_value : JValue

/-- `SmartThingsCustomSwitch.async_turn_on` (switch.py, lines 307-317):
issues the command and, only when the returned acknowledgment is truthy,
patches the cache with the on-value. -/
def SmartThingsCustomSwitch.async_turn_on (c : CustomSwitchCfg) (ack : Bool)
    (st : DeviceStatus) : DeviceStatus :=
  if ack then st.update_attribute_value c.attributeName c.on_value else st

/-- `SmartThingsCustomSwitch.async_turn_off` (switch.py, lines 296-305):
issues the command and, only when the returned acknowledgment is truthy,
patches the cache with the off-value. -/
def SmartThingsCustomSwitch.async_turn_off (c : CustomSwitchCfg) (ack : Bool)
    (st : DeviceStatus) : DeviceStatus :=
  if ack then st.update_attribute_value c.attributeName c.off_value else st

/-- `SmartThingsCustomSwitch.is_on` (switch.py, lines 329-336): when the
on-value is not `None`, compares the cached attribute value against it;
otherwise returns the raw cached value. -/
def SmartThingsCustomSwitch.is_on (c : CustomSwitchCfg) (st : DeviceStatus) : JValue :=
  match c.on_value with
  | JValue.jnull => (st.attr c.attributeName).value
  | v => if (st.attr c.attributeName).value = v then JValue.jbool true else JValue.jbool false

/-- Constructor arguments of `SamsungOcfTemperatureNumber` that its reads
and writes use (number.py, lines 192-203). -/
structure NumCfg where
  page : String

/-- Instance dict of a `SamsungOcfTemperatureNumber`; class-level defaults
`execute_state = 0`, `min_value_state = 0`, `max_value_state = 0`,
`unit_state = ""`, `init_bool = False` (number.py, lines 186-190). -/
structure NumState where
  execute_state : Option Rat := none
  min_value_state : Option Int := none
  max_value_state : Option Int := none
  unit_state : Option String := none
  init_bool : Option Bool := none
deriving DecidableEq

/-- Attribute read `self.execute_state`; the field holds a Python number —
the class default int 0, the int a matching read assigns, or the float the
service handler assigns. -/
def NumState.executeState (s : NumState) : Rat :=
  s.execute_state.getD 0

/-- Attribute read `self.min_value_state`. -/
def NumState.minValueState (s : NumState) : Int :=
  s.min_value_state.getD 0

/-- Attribute read `self.max_value_state`. -/
def NumState.maxValueState (s : NumState) : Int :=
  s.max_value_state.getD 0

/-- Attribute read `self.unit_state`. -/
def NumState.unitState (s : NumState) : String :=
  s.unit_state.getD ""

/-- Attribute read `self.init_bool`. -/
def NumState.initBool (s : NumState) : Bool :=
  s.init_bool.getD false

/-- `SamsungOcfTemperatureNumber.async_set_native_value` (number.py, lines
211-226): the handler receives `value: float` from the number service;
`device.execute(page, dict(temperature=value))` returns the acknowledgment
`ack`; only when it is truthy is the cache's `data` slot patched with the
optimistic payload and `self.execute_state` set to the float as-is. -/
def SamsungOcfTemperatureNumber.async_set_native_value (c : NumCfg) (ack : Bool)
    (value : Rat) (s : NumState) (st : DeviceStatus) : NumState × DeviceStatus :=
  if ack then
    let st1 := st.update_attribute_value "data"
      (JValue.jobj [("payload", JValue.jobj
        [("temperature", JValue.jrat value),
         ("range", JValue.jarr [JValue.jint s.minValueState, JValue.jint s.maxValueState]),
         ("units", JValue.jstr s.unitState)])])
    ({ s with execute_state := some value }, st1)
  else (s, st)

/-- `SamsungOcfTemperatureNumber.native_value` (number.py, lines 239-251):
dispatches the fire-and-forget `startup()` fetch while uninitialized, then
reads the shared `data` slot gated by `href == self._page`, assigning
`self.execute_state = int(payload["temperature"])` (line 246) and
returning `int(self.execute_state)` (line 251) — both `int(...)` calls
truncate a float toward zero.  Returns the value with the instance state
left behind and the dispatched fetch paths. -/
def SamsungOcfTemperatureNumber.native_value (c : NumCfg) (s : NumState)
    (st : DeviceStatus) : PyResult Int (NumState × List String) :=
  let fetches := if s.initBool then [] else [c.page]
  let dataAttr := st.attr "data"
  match jget dataAttr.data "href" with
  | Except.error e => PyResult.exc e (s, fetches)
  | Except.ok href =>
    if href = JValue.jstr c.page then
      let s1 : NumState := { s with init_bool := some true }
      match jget dataAttr.value "payload" with
      | Except.error e => PyResult.exc e (s1, fetches)
      | Except.ok payload =>
        match jget payload "temperature" with
        | Except.error e => PyResult.exc e (s1, fetches)
        | Except.ok tv =>
          match pyInt tv with
          | Except.error e => PyResult.exc e (s1, fetches)
          | Except.ok n =>
            let s2 : NumState := { s1 with execute_state := some ((n : Rat)) }
            PyResult.ok (pyTrunc s2.executeState) (s2, fetches)
    else
      PyResult.ok (pyTrunc s.executeState) (s, fetches)

/-- `SmartThingsThreeAxisSensor.native_value` (sensor.py, lines 759-766):
`three_axis[self._index]` inside `try: ... except (TypeError, IndexError):
return None`.  Subscripting `None` or a number raises `TypeError` (caught);
an out-of-range index on a list or string raises `IndexError` (caught); a
dict subscripted with an int raises `KeyError`, which the handler does not
catch. -/
def SmartThingsThreeAxisSensor.native_value (index : Nat) (st : DeviceStatus) :
    Except PyErr (Option JValue) :=
  match (st.attr "threeAxis").value with
  | JValue.jarr xs =>
    match xs.get? index with
    | some v => Except.ok (some v)
    | none => Except.ok none
  | JValue.jstr s =>
    match s.data.get? index with
    | some ch => Except.ok (some (JValue.jstr (String.mk [ch])))
    | none => Except.ok none
  | JValue.jobj _ => Except.error (PyErr.keyErrorIdx index)
  | _ => Except.ok none

/-- Modelled from the spec: `AssignmentResolver.resolve` — the broker's
capability-assignment drawdown pass lives in the integration's `__init__`
module, which is not among the provided sources; only its per-platform
selection helpers (the `get_capabilities` functions) and the priority list
`PLATFORMS` are.  Platforms are walked in priority order; each platform
takes from the remaining pool every capability it supports (mirroring the
`get_capabilities` table filters) and those capabilities leave the pool
considered by the platforms after it. -/
def resolve (supports : String → String → Bool) :
    List String → List String → List (String × List String)
  | [], _ => []
  | p :: ps, pool =>
    (p, pool.filter (fun cap => supports p cap)) ::
      resolve supports ps (pool.filter (fun cap => ! supports p cap))

/-- `PLATFORMS` (const.py, lines 42-55): the fixed platform priority order,
most specific first. -/
def PLATFORMS : List String :=
  ["climate", "fan", "light", "lock", "cover", "number", "select", "button",
   "switch", "binary_sensor", "sensor", "scene"]

/-- Keys of `CAPABILITY_TO_SWITCH` (custom_components/smartthings/switch.py,
lines 22-59). -/
def switchCapabilityKeys : List String :=
  ["switch", "custom.spiMode", "custom.autoCleaningMode"]

/-- `get_capabilities` of the switch platform
(custom_components/smartthings/switch.py, lines 188-193): the table keys
present in the device's capability list. -/
def get_capabilities_switch (capabilities : List String) : List String :=
  switchCapabilityKeys.filter (fun cap => capabilities.contains cap)

/-- `CAPABILITY_TO_ATTRIB` (binary_sensor.py, lines 28-38), with the
pysmartthings capability and attribute identifier strings. -/
def CAPABILITY_TO_ATTRIB : List (String × String) :=
  [("accelerationSensor", "acceleration"),
   ("contactSensor", "contact"),
   ("filterStatus", "filterStatus"),
   ("motionSensor", "motion"),
   ("presenceSensor", "presence"),
   ("soundSensor", "sound"),
   ("tamperAlert", "tamper"),
   ("valve", "valve"),
   ("waterSensor", "water")]

/-- `get_capabilities` of the binary_sensor platform (binary_sensor.py,
lines 110-114). -/
def get_capabilities_binary_sensor (capabilities : List String) : List String :=
  (CAPABILITY_TO_ATTRIB.map Prod.fst).filter (fun cap => capabilities.contains cap)

/-- Python dict lookup `table[capability]` as performed by the platform
setup loops: `KeyError` when the capability has no table entry. -/
def tableLookup (table : List (String × String)) (cap : String) : Except PyErr String :=
  match table.lookup cap with
  | some a => Except.ok a
  | none => Except.error (PyErr.keyError cap)

/-- The capability loop of `binary_sensor.async_setup_entry`
(binary_sensor.py, lines 60-62): for every capability the broker assigned
to the platform, `attrib = CAPABILITY_TO_ATTRIB[capability]`; the first
missing entry raises out of the setup coroutine (select.py lines 53-54 is
the same shape with its own table). -/
def setupEntryAttribs (table : List (String × String)) :
    List String → Except PyErr (List String)
  | [] => Except.ok []
  | cap :: rest =>
    match tableLookup table cap with
    | Except.error e => Except.error e
    | Except.ok a =>
      match setupEntryAttribs table rest with
      | Except.error e => Except.error e
      | Except.ok rs => Except.ok (a :: rs)

/-- A population of `SamsungOcfDoorBinarySensor` instances (each entity is
registered separately at setup; they share the class object and the
device but each has its own instance dict). -/
def doorWorldRun (world : Nat → DoorState) (i : Nat) (c : DoorCfg) (st : DeviceStatus) :
    Nat → DoorState :=
  fun j =>
    if j = i then ((SamsungOcfDoorBinarySensor.is_on c (world i) st).finalState).1
    else world j

/-- A population of `SamsungOcfTemperatureNumber` instances. -/
def numWorldRun (world : Nat → NumState) (i : Nat) (c : NumCfg) (st : DeviceStatus) :
    Nat → NumState :=
  fun j =>
    if j = i then ((SamsungOcfTemperatureNumber.native_value c (world i) st).finalState).1
    else world j

/-- Constructor arguments of `SamsungOcfSwitch`
(custom_components/smartthings/switch.py, lines 358-377); `on_value` and
`off_value` are a string or a list of strings (`str | list[str]`). -/
structure OcfSwitchCfg where
  page : String
  key : String
  on_value : JValue
  off_value : JValue

/-- Instance dict of a `SamsungOcfSwitch`; class-level defaults
`execute_state = False`, `init_bool = False` (switch.py, lines 379-380). -/
structure OcfSwitchState where
  execute_state : Option Bool := none
  init_bool : Option Bool := none
deriving DecidableEq

/-- Attribute read `self.execute_state`. -/
def OcfSwitchState.executeState (s : OcfSwitchState) : Bool :=
  s.execute_state.getD false

/-- Attribute read `self.init_bool`. -/
def OcfSwitchState.initBool (s : OcfSwitchState) : Bool :=
  s.init_bool.getD false

/-- `SamsungOcfSwitch.async_turn_on` (switch.py, lines 398-406): issues
`device.execute(page, dict(key=on_value))` and, only when the returned
acknowledgment is truthy, patches the `data` slot with the optimistic
payload and sets the sticky state. -/
def SamsungOcfSwitch.async_turn_on (c : OcfSwitchCfg) (ack : Bool)
    (s : OcfSwitchState) (st : DeviceStatus) : OcfSwitchState × DeviceStatus :=
  if ack then
    ({ s with execute_state := some true },
     st.update_attribute_value "data"
       (JValue.jobj [("payload", JValue.jobj [(c.key, c.on_value)])]))
  else (s, st)

/-- `SamsungOcfSwitch.async_turn_off` (switch.py, lines 388-396): the
acknowledgment-gated counterpart for the off value. -/
def SamsungOcfSwitch.async_turn_off (c : OcfSwitchCfg) (ack : Bool)
    (s : OcfSwitchState) (st : DeviceStatus) : OcfSwitchState × DeviceStatus :=
  if ack then
    ({ s with execute_state := some false },
     st.update_attribute_value "data"
       (JValue.jobj [("payload", JValue.jobj [(c.key, c.off_value)])]))
  else (s, st)

/-- `SamsungOcfSwitch.is_on` (switch.py, lines 420-439): dispatches the
fire-and-forget `startup()` fetch while uninitialized, then reads the
shared `data` slot gated by `href == self._page`; on a match it takes
`output = value["payload"][self._key]` and, depending on
`len(self._on_value) > 1`, tests `self._on_value in output` (marker
string) or `self._on_value[0] in output` (singleton list), the on-check
first and the off-check only if the on-check failed (`elif`). -/
def SamsungOcfSwitch.is_on (c : OcfSwitchCfg) (s : OcfSwitchState) (st : DeviceStatus) :
    PyResult Bool (OcfSwitchState × List String) :=
  let fetches := if s.initBool then [] else [c.page]
  let dataAttr := st.attr "data"
  match jget dataAttr.data "href" with
  | Except.error e => PyResult.exc e (s, fetches)
  | Except.ok href =>
    if href = JValue.jstr c.page then
      let s1 : OcfSwitchState := { s with init_bool := some true }
      match jget dataAttr.value "payload" with
      | Except.error e => PyResult.exc e (s1, fetches)
      | Except.ok payload =>
        match jget payload c.key with
        | Except.error e => PyResult.exc e (s1, fetches)
        | Except.ok output =>
          match pyLen c.on_value with
          | Except.error e => PyResult.exc e (s1, fetches)
          | Except.ok n =>
            if 1 < n then
              match pyIn c.on_value output with
              | Except.error e => PyResult.exc e (s1, fetches)
              | Except.ok b1 =>
                if b1 then
                  let s2 : OcfSwitchState := { s1 with execute_state := some true }
                  PyResult.ok s2.executeState (s2, fetches)
                else
                  match pyIn c.off_value output with
                  | Except.error e => PyResult.exc e (s1, fetches)
                  | Except.ok b2 =>
                    let s2 : OcfSwitchState :=
                      if b2 then { s1 with execute_state := some false } else s1
                    PyResult.ok s2.executeState (s2, fetches)
            else
              match pyIndex0 c.on_value with
              | Except.error e => PyResult.exc e (s1, fetches)
              | Except.ok onHead =>
                match pyIn onHead output with
                | Except.error e => PyResult.exc e (s1, fetches)
                | Except.ok b1 =>
                  if b1 then
                    let s2 : OcfSwitchState := { s1 with execute_state := some true }
                    PyResult.ok s2.executeState (s2, fetches)
                  else
                    match pyIndex0 c.off_value with
                    | Except.error e => PyResult.exc e (s1, fetches)
                    | Except.ok offHead =>
                      match pyIn offHead output with
                      | Except.error e => PyResult.exc e (s1, fetches)
                      | Except.ok b2 =>
                        let s2 : OcfSwitchState :=
                          if b2 then { s1 with execute_state := some false } else s1
                        PyResult.ok s2.executeState (s2, fetches)
    else
      PyResult.ok s.executeState (s, fetches)

/-
Concrete fixtures from `async_setup_entry` and the scenarios the spec
describes.
-/

/-- The cooler-door consumer registered at setup (binary_sensor.py,
lines 81-88). -/
def coolerDoorCfg : DoorCfg :=
  { page := "/door/cooler/0", on_value := "Open", off_value := "Closed" }

/-- The freezer-door consumer registered at setup (binary_sensor.py,
lines 89-96). -/
def freezerDoorCfg : DoorCfg :=
  { page := "/door/freezer/0", on_value := "Open", off_value := "Closed" }

/-- A cache with no attribute merged yet. -/
def emptyStatus : DeviceStatus := ⟨[]⟩

/-- The cache after a push merged the freezer-door page:
`href="/door/freezer/0"`, `payload.openState="Open"`. -/
def freezerOpenStatus : DeviceStatus :=
  ⟨[("data",
     { value := JValue.jobj [("payload", JValue.jobj [("openState", JValue.jstr "Open")])],
       data := JValue.jobj [("href", JValue.jstr "/door/freezer/0")] })]⟩

/-- A cache whose `data` slot is addressed to the cooler-door page but
whose payload lacks the `openState` field. -/
def coolerMalformedStatus : DeviceStatus :=
  ⟨[("data",
     { value := JValue.jobj [("payload", JValue.jobj [])],
       data := JValue.jobj [("href", JValue.jstr "/door/cooler/0")] })]⟩

/-- A cache whose `data` slot is addressed to the cooler-door page while
its payload happens to contain the AC-light marker string `"Light_Off"`. -/
def lightMismatchStatus : DeviceStatus :=
  ⟨[("data",
     { value := JValue.jobj
         [("payload", JValue.jobj
           [("x.com.samsung.da.options", JValue.jarr [JValue.jstr "Light_Off"])])],
       data := JValue.jobj [("href", JValue.jstr "/door/cooler/0")] })]⟩

/-- The sticky value a matching-href door read computes from the payload's
`openState` string `o` (binary_sensor.py, lines 318-324: the on-check runs
first, the off-check second, so the off marker wins when both occur; when
neither occurs the previous sticky value survives). -/
def doorSticky (onV offV o : String) (old : Bool) : Bool :=
  if strContains o offV then false
  else if strContains o onV then true
  else old

/-- The optimistic record a matching merge places in the `data` slot for a
temperature page (the round-trip merge of §8: `href = page`,
`payload.temperature = v`, the number `v` arriving as a Python float). -/
def tempMergeRecord (page : String) (v : Rat) : AttributeRecord :=
  { value := JValue.jobj [("payload", JValue.jobj [("temperature", JValue.jrat v)])],
    data := JValue.jobj [("href", JValue.jstr page)] }

/-- The record a matching merge places in the `data` slot for an OCF
switch page: `href = page`, `payload = dict(key=v)`. -/
def ocfSwitchMergeRecord (page key : String) (v : JValue) : AttributeRecord :=
  { value := JValue.jobj [("payload", JValue.jobj [(key, v)])],
    data := JValue.jobj [("href", JValue.jstr page)] }

/-- The cooler-setpoint number registered at setup (number.py, lines
78-83). -/
def coolerSetpointCfg : NumCfg := { page := "/temperature/desired/cooler/0" }

/-- The Power Cool switch registered at setup (switch.py, lines 152-161):
string markers `"On"`/`"Off"`. -/
def powerCoolCfg : OcfSwitchCfg :=
  { page := "/refrigeration/vs/0", key := "x.com.samsung.da.rapidFridge",
    on_value := JValue.jstr "On", off_value := JValue.jstr "Off" }

/-- The AC Light switch registered at setup (switch.py, lines 120-133):
singleton-list markers `["Light_Off"]`/`["Light_On"]` (the light states are
inverted by the device). -/
def acLightOcfCfg : OcfSwitchCfg :=
  { page := "/mode/vs/0", key := "x.com.samsung.da.options",
    on_value := JValue.jarr [JValue.jstr "Light_Off"],
    off_value := JValue.jarr [JValue.jstr "Light_On"] }

/-- The Python float 22.5, exactly representable, as sent by a
`number.set_value` service call. -/
def halfTemp : Rat := ⟨45, 2, by decide, by decide⟩

/-- Registry restricted to the two platform tables present in the sources,
used to instantiate the resolver. -/
def tableSupports : String → String → Bool := fun p cap =>
  if p = "switch" then switchCapabilityKeys.contains cap
  else if p = "binary_sensor" then (CAPABILITY_TO_ATTRIB.map Prod.fst).contains cap
  else false

/-- A patch is immediately visible to a point read of the same key. -/
theorem DeviceStatus.attr_update_self (st : DeviceStatus) (k : String) (v : JValue) :
    (st.update_attribute_value k v).attr k = { st.attr k with value := v } := by
  simp [DeviceStatus.update_attribute_value, DeviceStatus.attr, List.lookup]

/-- A merge is immediately visible to a point read of the same key. -/
theorem DeviceStatus.attr_merge_self (st : DeviceStatus) (k : String) (rec : AttributeRecord) :
    (st.merge k rec).attr k = rec := by
  simp [DeviceStatus.merge, DeviceStatus.attr, List.lookup]

/-- Every character list is a prefix of itself. -/
theorem charsPrefixOf_self (l : List Char) : charsPrefixOf l l = true := by
  induction l with
  | nil => rfl
  | cons a as ih => simp [charsPrefixOf, ih]

/-- Python `s in s` is true: every string contains itself. -/
theorem strContains_self (s : String) : strContains s s = true := by
  unfold strContains
  cases hd : s.data with
  | nil => simp [hd, charsInfixOf, charsPrefixOf]
  | cons b bs => simp [hd, charsInfixOf, charsPrefixOf_self]

/-- `int(...)` is the identity on an integral Python number. -/
theorem pyTrunc_intCast (n : Int) : pyTrunc ((n : Rat)) = n := by
  rw [pyTrunc, Rat.num_intCast, Rat.den_intCast]
  simp [Int.tdiv_one]


/-- C2: two uninitialized door consumers, a merge addressed to the freezer
page with `openState="Open"`; the cooler read still yields "Closed"
(false), the freezer read yields "Open" (true). -/
theorem claim2_cooler_freezer_scenario :
    DoorState.executeState {} = false ∧
    (SamsungOcfDoorBinarySensor.is_on coolerDoorCfg {} freezerOpenStatus).retVal
      = some false ∧
    (SamsungOcfDoorBinarySensor.is_on freezerDoorCfg {} freezerOpenStatus).retVal
      = some true := by
  refine ⟨rfl, ?_, ?_⟩ <;> decide

/-- C1 (amended): href gating holds for the consumers that check the
slot's `href` — shown for `SamsungOcfDoorBinarySensor`: a read while the
slot's `href` differs from the consumer's page (or cannot be read) leaves
the sticky value untouched, and a read while it equals the page updates
the sticky value from the payload's `openState`.  Consumers that parse the
shared slot without the gate (`SamsungAcLight`,
`SamsungOcfModeOptionsBinarySensor`) are exempted: see the
counterexample. -/
theorem claim1_door_href_gate (c : DoorCfg) (s : DoorState) (st : DeviceStatus) :
    (jget (st.attr "data").data "href" ≠ Except.ok (JValue.jstr c.page) →
      (SamsungOcfDoorBinarySensor.is_on c s st).finalState.1.execute_state
        = s.execute_state) ∧
    (∀ payload o,
      jget (st.attr "data").data "href" = Except.ok (JValue.jstr c.page) →
      jget (st.attr "data").value "payload" = Except.ok payload →
      jget payload "openState" = Except.ok (JValue.jstr o) →
      (SamsungOcfDoorBinarySensor.is_on c s st).retVal
        = some (doorSticky c.on_value c.off_value o s.executeState) ∧
      (SamsungOcfDoorBinarySensor.is_on c s st).finalState.1.executeState
        = doorSticky c.on_value c.off_value o s.executeState) := by
  constructor
  · intro hne
    unfold SamsungOcfDoorBinarySensor.is_on
    cases hh : jget (st.attr "data").data "href" with
    | error e => simp [hh, PyResult.finalState]
    | ok href =>
      have hv : ¬ href = JValue.jstr c.page := by
        intro h
        exact hne (by rw [hh, h])
      simp [hh, hv, PyResult.finalState]
  · intro payload o h1 h2 h3
    unfold SamsungOcfDoorBinarySensor.is_on
    by_cases hon : strContains o c.on_value <;>
      by_cases hoff : strContains o c.off_value <;>
        simp [h1, h2, h3, pyInStr, hon, hoff, doorSticky, PyResult.retVal,
          PyResult.finalState, DoorState.executeState]

/-- C1 fails as stated: `SamsungAcLight` (src/switch.py) is a paged
consumer of the shared `data` slot (its page is `"mode/vs/0"`), yet a read
performed while the slot's `href` is `"/door/cooler/0"` — a different
page — flips its sticky value from false to true, because `is_on` searches
the JSON dump of the slot's value for its marker substrings without any
`href` gate. -/
theorem claim1_aclight_ungated_cex :
    jget (lightMismatchStatus.attr "data").data "href"
      = Except.ok (JValue.jstr "/door/cooler/0") ∧
    "/door/cooler/0" ≠ "mode/vs/0" ∧
    AcLightState.executeState {} = false ∧
    (SamsungAcLight.is_on {} lightMismatchStatus).1 = true ∧
    (SamsungAcLight.is_on {} lightMismatchStatus).2.1.executeState = true := by
  refine ⟨rfl, by decide, rfl, ?_, ?_⟩ <;> decide

/-- Witness for `claim1_door_href_gate`: the cooler consumer's sticky state
survives the freezer-addressed slot, and the freezer consumer's read
computes its value from the payload. -/
theorem claim1_witness :
    (SamsungOcfDoorBinarySensor.is_on coolerDoorCfg {} freezerOpenStatus).finalState.1.execute_state
      = (({} : DoorState)).execute_state ∧
    (SamsungOcfDoorBinarySensor.is_on freezerDoorCfg {} freezerOpenStatus).retVal
      = some (doorSticky freezerDoorCfg.on_value freezerDoorCfg.off_value "Open"
          (DoorState.executeState {})) := by
  constructor
  · exact (claim1_door_href_gate coolerDoorCfg {} freezerOpenStatus).1 (by decide)
  · exact ((claim1_door_href_gate freezerDoorCfg {} freezerOpenStatus).2
      (JValue.jobj [("openState", JValue.jstr "Open")]) "Open"
      (by decide) (by decide) (by decide)).1

/-- C3: when the command is acknowledged (`ack = true`),
`SmartThingsCustomSwitch.async_turn_on` patches the cache at once, so a
point read of the target attribute returns the commanded value and
`is_on` reports true — with no push notification involved. -/
theorem claim3_ack_true_patches_cache (c : CustomSwitchCfg) (st : DeviceStatus)
    (ack : Bool) (w : String) (hack : ack = true)
    (hw : c.on_value = JValue.jstr w) :
    ((SmartThingsCustomSwitch.async_turn_on c ack st).attr c.attributeName).value
      = c.on_value ∧
    SmartThingsCustomSwitch.is_on c (SmartThingsCustomSwitch.async_turn_on c ack st)
      = JValue.jbool true := by
  subst hack
  have hval :
      ((SmartThingsCustomSwitch.async_turn_on c true st).attr c.attributeName).value
        = c.on_value := by
    simp [SmartThingsCustomSwitch.async_turn_on, DeviceStatus.attr_update_self]
  refine ⟨hval, ?_⟩
  rw [SmartThingsCustomSwitch.is_on, hw]
  simp [hval, hw]

/-- Witness for `claim3_ack_true_patches_cache`: the spiMode switch from
`CAPABILITY_TO_SWITCH` turned on against an empty cache. -/
theorem claim3_witness :
    ((SmartThingsCustomSwitch.async_turn_on
        { capability := "custom.spiMode", attributeName := "spiMode",
          on_command := "setSpiMode", off_command := "setSpiMode",
          on_value := JValue.jstr "on", off_value := JValue.jstr "off" }
        true emptyStatus).attr "spiMode").value = JValue.jstr "on" ∧
    SmartThingsCustomSwitch.is_on
      { capability := "custom.spiMode", attributeName := "spiMode",
        on_command := "setSpiMode", off_command := "setSpiMode",
        on_value := JValue.jstr "on", off_value := JValue.jstr "off" }
      (SmartThingsCustomSwitch.async_turn_on
        { capability := "custom.spiMode", attributeName := "spiMode",
          on_command := "setSpiMode", off_command := "setSpiMode",
          on_value := JValue.jstr "on", off_value := JValue.jstr "off" }
        true emptyStatus) = JValue.jbool true :=
  claim3_ack_true_patches_cache _ emptyStatus true "on" rfl rfl

/-- C4 fails as stated: `SamsungAcLight.async_turn_on` (src/switch.py,
lines 298-303) never inspects the acknowledgment — with `ack = false` it
still flips the instance's sticky `execute_state` from false to true, and
the change is consumer-visible: against a cache whose `data` value dumps
to a marker-free string, `is_on` flips from false to true. -/
theorem claim4_aclight_ignores_ack_cex :
    AcLightState.executeState {} = false ∧
    (SamsungAcLight.async_turn_on false {}).executeState = true ∧
    (SamsungAcLight.is_on {} emptyStatus).1 = false ∧
    (SamsungAcLight.is_on (SamsungAcLight.async_turn_on false {}) emptyStatus).1
      = true := by
  refine ⟨rfl, rfl, ?_, ?_⟩ <;> decide

/-- C4 (amended): consumers that test the acknowledgment behave as
claimed — `SmartThingsCustomSwitch` and `SamsungOcfTemperatureNumber` with
`ack = false` leave the cache and every sticky field exactly as they were;
`SamsungAcLight` is exempted: it sets its sticky `execute_state`
unconditionally (see the counterexample). -/
theorem claim4_ack_false_noop (c : CustomSwitchCfg) (nc : NumCfg) (st st2 : DeviceStatus)
    (s : NumState) (v : Rat) (ack : Bool) (hack : ack = false) :
    SmartThingsCustomSwitch.async_turn_off c ack st = st ∧
    SmartThingsCustomSwitch.async_turn_on c ack st = st ∧
    SamsungOcfTemperatureNumber.async_set_native_value nc ack v s st2 = (s, st2) := by
  subst hack
  refine ⟨?_, ?_, ?_⟩ <;>
    simp [SmartThingsCustomSwitch.async_turn_off, SmartThingsCustomSwitch.async_turn_on,
      SamsungOcfTemperatureNumber.async_set_native_value]

/-- Witness for `claim4_ack_false_noop` on concrete inputs. -/
theorem claim4_witness :
    SmartThingsCustomSwitch.async_turn_off
      { capability := "custom.spiMode", attributeName := "spiMode",
        on_command := "setSpiMode", off_command := "setSpiMode",
        on_value := JValue.jstr "on", off_value := JValue.jstr "off" }
      false freezerOpenStatus = freezerOpenStatus ∧
    SmartThingsCustomSwitch.async_turn_on
      { capability := "custom.spiMode", attributeName := "spiMode",
        on_command := "setSpiMode", off_command := "setSpiMode",
        on_value := JValue.jstr "on", off_value := JValue.jstr "off" }
      false freezerOpenStatus = freezerOpenStatus ∧
    SamsungOcfTemperatureNumber.async_set_native_value
      { page := "/temperature/desired/cooler/0" } false 5 {} emptyStatus
      = ({}, emptyStatus) :=
  claim4_ack_false_noop _ _ freezerOpenStatus emptyStatus {} 5 false rfl

/-- C5 fails as stated: for the uninitialized cooler-door consumer facing
a slot addressed to another page, the first read dispatches the fetch,
leaves the consumer uninitialized, and a second read within the same
uninitialized interval dispatches the fetch again — the transition is not
"exactly once per uninitialized interval". -/
theorem claim5_door_refetch_cex :
    (SamsungOcfDoorBinarySensor.is_on coolerDoorCfg {} freezerOpenStatus).finalState.2
      = ["/door/cooler/0"] ∧
    (SamsungOcfDoorBinarySensor.is_on coolerDoorCfg {} freezerOpenStatus).finalState.1.initBool
      = false ∧
    (SamsungOcfDoorBinarySensor.is_on coolerDoorCfg
      (SamsungOcfDoorBinarySensor.is_on coolerDoorCfg {} freezerOpenStatus).finalState.1
      freezerOpenStatus).finalState.2 = ["/door/cooler/0"] := by
  refine ⟨?_, ?_, ?_⟩ <;> decide

/-- C5 (amended): an uninitialized read returns the type-appropriate
default, but only `SamsungOcfModeOptionsBinarySensor` dispatches its fetch
exactly once per uninitialized interval (its `startup` sets `init_bool`);
`SamsungOcfDoorBinarySensor` and `SamsungCooktopBurner` re-dispatch on
every read until a matching merge arrives (see the counterexample).  For
the mode-options consumer: a fresh instance's read returns the default
false, dispatches `"/mode/vs/0"` once, and every read from any later state
dispatches nothing. -/
theorem claim5_mode_options_fetch_once (c : ModeOptionsCfg) (s : ModeOptionsState)
    (st : DeviceStatus)
    (hs1 : s.execute_state = none) (hs2 : s.init_bool = none)
    (h1 : strContains (jdump (st.attr "data").value) c.on_value = false)
    (h2 : strContains (jdump (st.attr "data").value) c.off_value = false) :
    (SamsungOcfModeOptionsBinarySensor.is_on c s st).1 = false ∧
    (SamsungOcfModeOptionsBinarySensor.is_on c s st).2.2 = ["/mode/vs/0"] ∧
    (SamsungOcfModeOptionsBinarySensor.is_on c s st).2.1.initBool = true ∧
    (∀ s2 : ModeOptionsState, ∀ st2 : DeviceStatus, s2.initBool = true →
      (SamsungOcfModeOptionsBinarySensor.is_on c s2 st2).2.2 = [] ∧
      (SamsungOcfModeOptionsBinarySensor.is_on c s2 st2).2.1.initBool = true) := by
  have hread : ∀ s2 : ModeOptionsState, ∀ st2 : DeviceStatus, s2.initBool = true →
      (SamsungOcfModeOptionsBinarySensor.is_on c s2 st2).2.2 = [] ∧
      (SamsungOcfModeOptionsBinarySensor.is_on c s2 st2).2.1.initBool = true := by
    intro s2 st2 hinit
    rw [ModeOptionsState.initBool] at hinit
    unfold SamsungOcfModeOptionsBinarySensor.is_on
    by_cases g1 : strContains (jdump (st2.attr "data").value) c.on_value <;>
      by_cases g2 : strContains (jdump (st2.attr "data").value) c.off_value <;>
        simp [hinit, g1, g2, ModeOptionsState.initBool]
  refine ⟨?_, ?_, ?_, hread⟩ <;>
    unfold SamsungOcfModeOptionsBinarySensor.is_on <;>
      simp [hs1, hs2, h1, h2, ModeOptionsState.initBool, ModeOptionsState.executeState]

/-- Witness for `claim5_mode_options_fetch_once`: a fresh mode-options
consumer (markers `"Sterilize_On"`/`"Sterilize_Off"`) reading an empty
cache. -/
theorem claim5_witness :
    (SamsungOcfModeOptionsBinarySensor.is_on
      { on_value := "Sterilize_On", off_value := "Sterilize_Off" } {} emptyStatus).1
      = false ∧
    (SamsungOcfModeOptionsBinarySensor.is_on
      { on_value := "Sterilize_On", off_value := "Sterilize_Off" } {} emptyStatus).2.2
      = ["/mode/vs/0"] ∧
    (SamsungOcfModeOptionsBinarySensor.is_on
      { on_value := "Sterilize_On", off_value := "Sterilize_Off" } {} emptyStatus).2.1.initBool
      = true ∧
    (∀ s2 : ModeOptionsState, ∀ st2 : DeviceStatus, s2.initBool = true →
      (SamsungOcfModeOptionsBinarySensor.is_on
        { on_value := "Sterilize_On", off_value := "Sterilize_Off" } s2 st2).2.2 = [] ∧
      (SamsungOcfModeOptionsBinarySensor.is_on
        { on_value := "Sterilize_On", off_value := "Sterilize_Off" } s2 st2).2.1.initBool
        = true) :=
  claim5_mode_options_fetch_once _ {} emptyStatus rfl rfl (by decide) (by decide)

/-- C6 fails as stated: the number service passes `value` as a Python
float, and `native_value` coerces with `int(...)` (number.py, lines 246
and 251).  For `v = 22.5` on the cooler-setpoint page, an acknowledged
`execute(page, dict(temperature=v))` followed by the matching merge makes
`read()` return `22`, and `22 != 22.5`. -/
theorem claim6_float_truncation_cex :
    (SamsungOcfTemperatureNumber.native_value coolerSetpointCfg
      (SamsungOcfTemperatureNumber.async_set_native_value coolerSetpointCfg true
        halfTemp {} emptyStatus).1
      (((SamsungOcfTemperatureNumber.async_set_native_value coolerSetpointCfg true
        halfTemp {} emptyStatus).2).merge "data"
        (tempMergeRecord "/temperature/desired/cooler/0" halfTemp))).retVal
      = some 22 ∧
    ¬ (((22 : Int) : Rat) = halfTemp) := by
  refine ⟨?_, by decide⟩
  decide

/-- C6 (amended): the round trip holds up to the `int(...)` coercion the
source applies.  Temperature number: after an acknowledged
`execute(page, dict(temperature=v))` and a merge placing
`href = page, payload.temperature = v` into the `data` slot, `read()`
returns the truncation `int(v)` — equal to `v` exactly when `v` is
integral.  OCF switch (the claim's other cited consumer): after an
acknowledged `execute(page, dict(key=on_value))` and a merge placing
`href = page, payload = dict(key=on_value)`, `is_on` reads true, both for
a marker-string `on_value` of length > 1 and for a singleton-list
`on_value`. -/
theorem claim6_roundtrip_amended (c : NumCfg) (s : NumState) (st : DeviceStatus)
    (ack : Bool) (v : Rat) (c2 : OcfSwitchCfg) (s2 : OcfSwitchState)
    (st2 : DeviceStatus) (w : String) (hack : ack = true) :
    (SamsungOcfTemperatureNumber.native_value c
      (SamsungOcfTemperatureNumber.async_set_native_value c ack v s st).1
      (((SamsungOcfTemperatureNumber.async_set_native_value c ack v s st).2).merge
        "data" (tempMergeRecord c.page v))).retVal = some (pyTrunc v) ∧
    (∀ n : Int, v = (n : Rat) → ((pyTrunc v : Rat)) = v) ∧
    (c2.on_value = JValue.jstr w → 1 < w.length →
      (SamsungOcfSwitch.is_on c2
        (SamsungOcfSwitch.async_turn_on c2 ack s2 st2).1
        (((SamsungOcfSwitch.async_turn_on c2 ack s2 st2).2).merge "data"
          (ocfSwitchMergeRecord c2.page c2.key c2.on_value))).retVal = some true) ∧
    (c2.on_value = JValue.jarr [JValue.jstr w] →
      (SamsungOcfSwitch.is_on c2
        (SamsungOcfSwitch.async_turn_on c2 ack s2 st2).1
        (((SamsungOcfSwitch.async_turn_on c2 ack s2 st2).2).merge "data"
          (ocfSwitchMergeRecord c2.page c2.key c2.on_value))).retVal = some true) := by
  subst hack
  refine ⟨?_, ?_, ?_, ?_⟩
  · unfold SamsungOcfTemperatureNumber.native_value
    simp [DeviceStatus.attr_merge_self, tempMergeRecord, jget, List.lookup, pyInt,
      PyResult.retVal, NumState.executeState, pyTrunc_intCast,
      SamsungOcfTemperatureNumber.async_set_native_value]
  · intro n hn
    subst hn
    rw [pyTrunc_intCast]
  · intro hon hlen
    unfold SamsungOcfSwitch.is_on
    simp [DeviceStatus.attr_merge_self, ocfSwitchMergeRecord, jget, List.lookup,
      pyLen, pyIn, hon, hlen, strContains_self, PyResult.retVal,
      OcfSwitchState.executeState]
  · intro hon
    unfold SamsungOcfSwitch.is_on
    simp [DeviceStatus.attr_merge_self, ocfSwitchMergeRecord, jget, List.lookup,
      pyLen, pyIn, pyIndex0, hon, List.contains, PyResult.retVal,
      OcfSwitchState.executeState]

/-- Witness for `claim6_roundtrip_amended`: the cooler setpoint at the
integral value 5, the Power Cool switch (marker string `"On"`), and the AC
Light switch (singleton list `["Light_Off"]`). -/
theorem claim6_witness :
    (SamsungOcfTemperatureNumber.native_value coolerSetpointCfg
      (SamsungOcfTemperatureNumber.async_set_native_value coolerSetpointCfg true
        5 {} emptyStatus).1
      (((SamsungOcfTemperatureNumber.async_set_native_value coolerSetpointCfg true
        5 {} emptyStatus).2).merge "data"
        (tempMergeRecord "/temperature/desired/cooler/0" 5))).retVal
      = some (pyTrunc 5) ∧
    (SamsungOcfSwitch.is_on powerCoolCfg
      (SamsungOcfSwitch.async_turn_on powerCoolCfg true {} emptyStatus).1
      (((SamsungOcfSwitch.async_turn_on powerCoolCfg true {} emptyStatus).2).merge
        "data" (ocfSwitchMergeRecord "/refrigeration/vs/0"
          "x.com.samsung.da.rapidFridge" (JValue.jstr "On")))).retVal = some true ∧
    (SamsungOcfSwitch.is_on acLightOcfCfg
      (SamsungOcfSwitch.async_turn_on acLightOcfCfg true {} emptyStatus).1
      (((SamsungOcfSwitch.async_turn_on acLightOcfCfg true {} emptyStatus).2).merge
        "data" (ocfSwitchMergeRecord "/mode/vs/0" "x.com.samsung.da.options"
          (JValue.jarr [JValue.jstr "Light_Off"])))).retVal = some true := by
  refine ⟨?_, ?_, ?_⟩
  · exact (claim6_roundtrip_amended coolerSetpointCfg {} emptyStatus true 5
      powerCoolCfg {} emptyStatus "On" rfl).1
  · exact (claim6_roundtrip_amended coolerSetpointCfg {} emptyStatus true 5
      powerCoolCfg {} emptyStatus "On" rfl).2.2.1 rfl (by decide)
  · exact (claim6_roundtrip_amended coolerSetpointCfg {} emptyStatus true 5
      acLightOcfCfg {} emptyStatus "Light_Off" rfl).2.2.2 rfl

/-- A capability absent from the pool never appears in any platform's
assignment. -/
theorem resolve_not_mem_of_not_mem_pool (supports : String → String → Bool)
    (plats : List String) (pool : List String) (cap : String) (h : cap ∉ pool) :
    ∀ pr ∈ resolve supports plats pool, cap ∉ pr.2 := by
  induction plats generalizing pool with
  | nil => simp [resolve]
  | cons p ps ih =>
    intro pr hpr
    simp only [resolve, List.mem_cons] at hpr
    rcases hpr with h1 | h2
    · subst h1
      intro hc
      exact h (List.mem_of_mem_filter hc)
    · exact ih (pool.filter (fun cap2 => ! supports p cap2))
        (fun hc => h (List.mem_of_mem_filter hc)) pr h2

/-- Each capability is assigned by `resolve` to at most one platform. -/
theorem resolve_countP_le_one (supports : String → String → Bool)
    (plats : List String) (pool : List String) (cap : String) :
    (resolve supports plats pool).countP (fun pr => decide (cap ∈ pr.2)) ≤ 1 := by
  induction plats generalizing pool with
  | nil => simp [resolve]
  | cons p ps ih =>
    rw [resolve, List.countP_cons]
    by_cases hmem : cap ∈ pool.filter (fun cap2 => supports p cap2)
    · have hsup : supports p cap = true := List.of_mem_filter hmem
      have hnp : cap ∉ pool.filter (fun cap2 => ! supports p cap2) := by
        intro hc
        have := List.of_mem_filter hc
        rw [hsup] at this
        exact Bool.noConfusion this
      have hzero :
          (resolve supports ps (pool.filter (fun cap2 => ! supports p cap2))).countP
            (fun pr => decide (cap ∈ pr.2)) = 0 := by
        rw [List.countP_eq_zero]
        intro pr hpr
        simpa using resolve_not_mem_of_not_mem_pool supports ps _ cap hnp pr hpr
      simp [hzero, hmem]
    · have hrest := ih (pool.filter (fun cap2 => ! supports p cap2))
      simp only [hmem]
      simpa using hrest

/-- C7: the resolver assigns each capability to at most one platform, and
with priority order `[A, B]` a capability of the pool supported by `A`
lands in `A`'s list and never in `B`'s — regardless of whether `B` also
supports it. -/
theorem claim7_resolver_exclusive_priority (supports : String → String → Bool)
    (plats pool : List String) (cap A B : String)
    (hA : supports A cap = true) (hpool : cap ∈ pool) :
    (resolve supports plats pool).countP (fun pr => decide (cap ∈ pr.2)) ≤ 1 ∧
    (∃ la lb, resolve supports [A, B] pool = [(A, la), (B, lb)] ∧
      cap ∈ la ∧ cap ∉ lb) := by
  refine ⟨resolve_countP_le_one supports plats pool cap, ?_⟩
  refine ⟨pool.filter (fun cap2 => supports A cap2),
    (pool.filter (fun cap2 => ! supports A cap2)).filter (fun cap2 => supports B cap2),
    by simp [resolve], ?_, ?_⟩
  · exact List.mem_filter.mpr ⟨hpool, hA⟩
  · intro hc
    have := List.of_mem_filter (List.mem_of_mem_filter hc)
    rw [hA] at this
    exact Bool.noConfusion this

/-- Witness for `claim7_resolver_exclusive_priority`: the registry built
from the switch and binary_sensor tables of the sources, the full
`PLATFORMS` priority list, and the capability `"switch"` — supported by the
switch platform and so never assigned to the later binary_sensor
platform. -/
theorem claim7_witness :
    (resolve tableSupports PLATFORMS ["switch", "contactSensor"]).countP
      (fun pr => decide ("switch" ∈ pr.2)) ≤ 1 ∧
    (∃ la lb, resolve tableSupports ["switch", "binary_sensor"]
        ["switch", "contactSensor"] = [("switch", la), ("binary_sensor", lb)] ∧
      "switch" ∈ la ∧ "switch" ∉ lb) :=
  claim7_resolver_exclusive_priority tableSupports PLATFORMS
    ["switch", "contactSensor"] "switch" "switch" "binary_sensor"
    (by decide) (by decide)

/-- C8 fails as stated: a cooler-door read over a matching-href slot whose
payload lacks the `openState` field is not a soft miss — the read raises
`KeyError("openState")`, after mutating `self.init_bool` to `True`. -/
theorem claim8_door_keyerror_cex :
    SamsungOcfDoorBinarySensor.is_on coolerDoorCfg {} coolerMalformedStatus
      = PyResult.exc (PyErr.keyError "openState")
          ({ execute_state := none, init_bool := some true }, ["/door/cooler/0"]) := by
  decide

/-- C8 (amended): the soft-miss behavior holds for the three-axis sensor,
whose read wraps the subscription in `try/except (TypeError, IndexError)`:
an absent value (`None`) or a too-short list yields `None` with no
mutation and no error.  Paged consumers such as
`SamsungOcfDoorBinarySensor` are exempt: a matching-href slot whose
payload lacks the expected field raises `KeyError` out of the read (see the
counterexample). -/
theorem claim8_three_axis_soft_miss (st : DeviceStatus) (i : Nat)
    (h : (st.attr "threeAxis").value = JValue.jnull ∨
      ∃ xs, (st.attr "threeAxis").value = JValue.jarr xs ∧ xs.length ≤ i) :
    SmartThingsThreeAxisSensor.native_value i st = Except.ok none := by
  rcases h with h | ⟨xs, h, hlen⟩
  · simp [SmartThingsThreeAxisSensor.native_value, h]
  · simp [SmartThingsThreeAxisSensor.native_value, h, List.getElem?_eq_none hlen]

/-- Witness for `claim8_three_axis_soft_miss`: no `threeAxis` attribute has
ever been merged, so its value is `None`. -/
theorem claim8_witness :
    SmartThingsThreeAxisSensor.native_value 0 emptyStatus = Except.ok none :=
  claim8_three_axis_soft_miss emptyStatus 0 (Or.inl rfl)

/-- C9: a capability assigned to a platform but missing from that
platform's capability table makes the platform's setup loop raise
(`KeyError` propagates out of `async_setup_entry`) instead of continuing. -/
theorem claim9_setup_fails_on_unknown_capability (table : List (String × String))
    (assigned : List String) (cap : String)
    (hmem : cap ∈ assigned) (hmiss : table.lookup cap = none) :
    ∃ e, setupEntryAttribs table assigned = Except.error e := by
  induction assigned with
  | nil => cases hmem
  | cons a rest ih =>
    rcases List.mem_cons.mp hmem with rfl | hmem2
    · exact ⟨PyErr.keyError cap, by simp [setupEntryAttribs, tableLookup, hmiss]⟩
    · cases hhd : tableLookup table a with
      | error e => exact ⟨e, by simp [setupEntryAttribs, hhd]⟩
      | ok a2 =>
        obtain ⟨e, he⟩ := ih hmem2
        exact ⟨e, by simp [setupEntryAttribs, hhd, he]⟩

/-- Witness for `claim9_setup_fails_on_unknown_capability`: the broker
assigning `"powerConsumptionReport"` to the binary_sensor platform, whose
`CAPABILITY_TO_ATTRIB` has no such key. -/
theorem claim9_witness :
    ∃ e, setupEntryAttribs CAPABILITY_TO_ATTRIB
      ["contactSensor", "powerConsumptionReport"] = Except.error e :=
  claim9_setup_fails_on_unknown_capability CAPABILITY_TO_ATTRIB
    ["contactSensor", "powerConsumptionReport"] "powerConsumptionReport"
    (by decide) (by decide)

/-- C10: sticky-state isolation across instances — running a read (with all
its sticky writes) on instance `i` of a door-sensor or temperature-number
population leaves every other instance's state untouched, because every
mutation in the source methods is a `self.field = ...` write into the
instance dict; the class-level declarations only supply the value an
instance observes before its first write (a fresh instance dict reads the
class defaults). -/
theorem claim10_instance_isolation (dworld : Nat → DoorState) (nworld : Nat → NumState)
    (i j : Nat) (c : DoorCfg) (nc : NumCfg) (st st2 : DeviceStatus) (hij : j ≠ i) :
    doorWorldRun dworld i c st j = dworld j ∧
    numWorldRun nworld i nc st2 j = nworld j ∧
    (∀ s : DoorState, s.execute_state = none → s.executeState = false) ∧
    (∀ s : DoorState, s.init_bool = none → s.initBool = false) ∧
    (∀ s : NumState, s.execute_state = none → s.executeState = 0) := by
  refine ⟨?_, ?_, ?_, ?_, ?_⟩
  · simp [doorWorldRun, hij]
  · simp [numWorldRun, hij]
  · intro s hs; simp [DoorState.executeState, hs]
  · intro s hs; simp [DoorState.initBool, hs]
  · intro s hs; simp [NumState.executeState, hs]

/-- Witness for `claim10_instance_isolation`: the freezer read mutates
instance 0's sticky state while instance 1 keeps its state. -/
theorem claim10_witness :
    doorWorldRun (fun _ => {}) 0 freezerDoorCfg freezerOpenStatus 1 = ({} : DoorState) ∧
    numWorldRun (fun _ => {}) 0 { page := "/temperature/desired/cooler/0" }
      emptyStatus 1 = ({} : NumState) ∧
    (∀ s : DoorState, s.execute_state = none → s.executeState = false) ∧
    (∀ s : DoorState, s.init_bool = none → s.initBool = false) ∧
    (∀ s : NumState, s.execute_state = none → s.executeState = 0) :=
  claim10_instance_isolation (fun _ => {}) (fun _ => {}) 0 1 freezerDoorCfg
    { page := "/temperature/desired/cooler/0" } freezerOpenStatus emptyStatus
    (by decide)
